import Mathlib

/-!
Shallow embedding of the mcp-auth-helper repository (TypeScript) in Lean 4.

Source files embedded:
  - src/oauth.ts    : endpoint discovery, dynamic client registration,
                      PKCE generation, token exchange
  - src/server.ts   : the local HTTP callback listener (startCallbackServer)
  - src/storage.ts  : the auth-file data model and readAuthFile
  - src/index.ts (unnamed/part_001) : the main orchestration flow

External collaborators (Node.js standard library) are modelled as explicit
parameters: the SHA-256 digest of crypto.createHash("sha256") is a parameter
of type List Nat → List Nat (byte lists); crypto.randomBytes(32) is a
parameter holding the 32 random bytes; network fetch results, the parsed
JSON bodies, the file-system read result and the JSON parser of storage are
likewise inputs. Buffer.toString("base64url") is embedded concretely as
base64url below (RFC 4648 §5, unpadded), since several claims quantify over
that encoding. Strings produced by the code are ASCII, so UTF-8 encoding of
a string is modelled as the list of its character codes.
-/

set_option autoImplicit false

namespace MCPAuth

/-- JavaScript truthiness of an optional string: `undefined` and `""` are
falsy, every other string is truthy. Used for the `!x` checks in oauth.ts. -/
def truthy : Option String → Bool
  | none => false
  | some s => s ≠ ""

/-- JavaScript truthiness of an optional number: `undefined` and `0` are falsy. -/
def truthyNat : Option Nat → Bool
  | none => false
  | some n => n ≠ 0

/-! ## base64url (Node Buffer.toString("base64url"): unpadded, URL-safe) -/

/-- The 64-character base64url alphabet. -/
def b64Alphabet : List Char :=
  "ABCDEFGHIJKLMNOPQRSTUVWXYZabcdefghijklmnopqrstuvwxyz0123456789-_".data

/-- The base64url character for a 6-bit value. -/
def b64Char (n : Nat) : Char := b64Alphabet.getD n 'A'

/-- base64url-encode a byte list, three input bytes at a time, without
padding (Node's "base64url" encoding emits no `=`). -/
def base64urlChars : List Nat → List Char
  | [] => []
  | [b1] => [b64Char (b1 / 4), b64Char (b1 % 4 * 16)]
  | [b1, b2] => [b64Char (b1 / 4), b64Char (b1 % 4 * 16 + b2 / 16), b64Char (b2 % 16 * 4)]
  | b1 :: b2 :: b3 :: rest =>
      b64Char (b1 / 4) :: b64Char (b1 % 4 * 16 + b2 / 16) ::
        b64Char (b2 % 16 * 4 + b3 / 64) :: b64Char (b3 % 64) :: base64urlChars rest

/-- base64url encoding as a string. -/
def base64url (bs : List Nat) : String := String.mk (base64urlChars bs)

/-- The unreserved-URL-character class of the regex
`[^a-zA-Z0-9\-._~]` used in generatePKCE: a character survives the strip
exactly when this is true. -/
def isUnreservedChar (c : Char) : Bool :=
  ('a' ≤ c && c ≤ 'z') || ('A' ≤ c && c ≤ 'Z') || ('0' ≤ c && c ≤ '9') ||
    c = '-' || c = '.' || c = '_' || c = '~'

/-! ## PKCE (src/oauth.ts, generatePKCE) -/

structure PKCEPair where
  codeVerifier : String
  codeChallenge : String
deriving DecidableEq, Repr

/-- UTF-8 bytes of an ASCII string (the hash input of
`crypto.createHash("sha256").update(codeVerifier)`). -/
def strBytes (s : String) : List Nat := s.data.map Char.toNat

/-- src/oauth.ts generatePKCE, lines 112-124. `sha256` stands for Node's
crypto SHA-256 digest; `verifierBytes` stands for the 32 bytes of
crypto.randomBytes(32). The verifier is the base64url encoding of those
bytes with every character outside `[a-zA-Z0-9\-._~]` stripped, and the
challenge is the base64url encoding of the SHA-256 digest of the verifier. -/
def generatePKCE (sha256 : List Nat → List Nat) (verifierBytes : List Nat) : PKCEPair :=
  let codeVerifier := String.mk ((base64urlChars verifierBytes).filter isUnreservedChar)
  let codeChallenge := base64url (sha256 (strBytes codeVerifier))
  { codeVerifier := codeVerifier, codeChallenge := codeChallenge }

/-- The challenge as a function of the verifier alone (the hash relationship
of spec §4.3: codeChallenge = base64url(SHA256(codeVerifier))). -/
def challengeOf (sha256 : List Nat → List Nat) (verifier : String) : String :=
  base64url (sha256 (strBytes verifier))

/-! ### base64url lemmas -/

theorem b64Alphabet_length : b64Alphabet.length = 64 := by decide

theorem isUnreservedChar_b64Char (n : Nat) : isUnreservedChar (b64Char n) = true := by
  by_cases h : n < 64
  · exact (by decide : ∀ m, m < 64 → isUnreservedChar (b64Char m) = true) n h
  · unfold b64Char
    rw [List.getD_eq_default]
    · decide
    · rw [b64Alphabet_length]; omega

theorem base64urlChars_all_unreserved :
    ∀ bs : List Nat, (base64urlChars bs).all isUnreservedChar = true
  | [] => by simp [base64urlChars]
  | [b1] => by simp [base64urlChars, isUnreservedChar_b64Char]
  | [b1, b2] => by simp [base64urlChars, isUnreservedChar_b64Char]
  | b1 :: b2 :: b3 :: rest => by
      have ih := base64urlChars_all_unreserved rest
      simp [base64urlChars, isUnreservedChar_b64Char] at *
      exact ih

theorem base64urlChars_length :
    ∀ bs : List Nat, (base64urlChars bs).length = (4 * bs.length + 2) / 3
  | [] => by simp [base64urlChars]
  | [b1] => by simp [base64urlChars]
  | [b1, b2] => by simp [base64urlChars]
  | b1 :: b2 :: b3 :: rest => by
      have ih := base64urlChars_length rest
      simp [base64urlChars, ih]
      omega

theorem unreserved_no_pad {l : List Char} (h : l.all isUnreservedChar = true) :
    (l.all fun c => c != '=') = true := by
  rw [List.all_eq_true] at h ⊢
  intro c hc
  have hu := h c hc
  rcases c with ⟨v, hv⟩
  simp only [bne_iff_ne, ne_eq]
  intro he
  rw [he] at hu
  exact absurd hu (by decide)

/-! ## HTTP JSON fetch (src/oauth.ts, fetchJSON, lines 29-38)

A fetch outcome is modelled as `Except String (FetchResult α)`: `.error m`
is a rejected fetch (network failure with message m); `.ok r` carries the
HTTP status information and the result of parsing the body as JSON of
shape α (`.error` there is a malformed-JSON body). -/

structure FetchResult (α : Type) where
  ok : Bool
  status : Nat
  statusText : String
  bodyText : String
  json : Except String α
deriving Repr

/-- The error message fetchJSON throws on a non-2xx response
(`HTTP ${status} ${statusText} from ${url}` plus the body when non-empty). -/
def httpErrorMsg {α : Type} (url : String) (r : FetchResult α) : String :=
  "HTTP " ++ toString r.status ++ " " ++ r.statusText ++ " from " ++ url ++
    (if r.bodyText ≠ "" then ": " ++ r.bodyText else "")

/-- src/oauth.ts fetchJSON: a rejected fetch propagates; a non-ok status
throws the HTTP error message; otherwise the parsed JSON body is returned
(whose own parse failure propagates as an error). -/
def fetchJSON {α : Type} (url : String) (net : Except String (FetchResult α)) :
    Except String α :=
  match net with
  | .error e => .error e
  | .ok r => if r.ok then r.json else .error (httpErrorMsg url r)

/-! ## Endpoint discovery (src/oauth.ts, discoverOAuthEndpoints, lines 40-76) -/

/-- The JSON body of the well-known metadata document, with each field
optional (absent when the key is missing). -/
structure OAuthMetadata where
  authorization_endpoint : Option String
  token_endpoint : Option String
  registration_endpoint : Option String
deriving DecidableEq, Repr

structure OAuthEndpoints where
  authorizationEndpoint : String
  tokenEndpoint : String
  registrationEndpoint : Option String
deriving DecidableEq, Repr

/-- The fixed RFC 8414 well-known URL tried by discovery: origin +
"/.well-known/oauth-authorization-server" (`new URL(path, base.origin).href`). -/
def wellKnownUrl (origin : String) : String :=
  origin ++ "/.well-known/oauth-authorization-server"

def missingFieldsMsg : String :=
  "OAuth metadata missing required fields (authorization_endpoint, token_endpoint)"

/-- The wrapper the catch block of discoverOAuthEndpoints applies to any
inner error. -/
def discoverWrap (origin cause : String) : String :=
  "Failed to discover OAuth endpoints from " ++ wellKnownUrl origin ++ ": " ++ cause

/-- src/oauth.ts discoverOAuthEndpoints. `origin` is `new URL(serverUrl).origin`
(URL parsing is Node stdlib); `net` is the outcome of fetching the well-known
URL. The try block fetches the metadata, requires truthy authorization_endpoint
and token_endpoint, and passes registration_endpoint through as-is; the catch
block wraps every failure with the attempted URL. -/
def discoverOAuthEndpoints (origin : String)
    (net : Except String (FetchResult OAuthMetadata)) : Except String OAuthEndpoints :=
  let inner : Except String OAuthEndpoints :=
    match fetchJSON (wellKnownUrl origin) net with
    | .error e => .error e
    | .ok metadata =>
        if truthy metadata.authorization_endpoint && truthy metadata.token_endpoint then
          .ok { authorizationEndpoint := metadata.authorization_endpoint.getD ""
                tokenEndpoint := metadata.token_endpoint.getD ""
                registrationEndpoint := metadata.registration_endpoint }
        else
          .error missingFieldsMsg
  match inner with
  | .ok v => .ok v
  | .error e => .error (discoverWrap origin e)

/-! ## Dynamic client registration (src/oauth.ts, registerClient, lines 78-110) -/

/-- The JSON body returned by the registration endpoint. -/
structure RegistrationResponse where
  client_id : Option String
  client_secret : Option String
  client_id_issued_at : Option Nat
  client_secret_expires_at : Option Nat
deriving DecidableEq, Repr

structure RegisteredClient where
  clientId : String
  clientSecret : Option String
  clientIdIssuedAt : Option Nat
  clientSecretExpiresAt : Option Nat
deriving DecidableEq, Repr

def missingClientIdMsg : String := "Client registration did not return a client_id"

/-- src/oauth.ts registerClient. `redirectUri` and `clientName` shape the POST
body (redirect_uris = [redirectUri], client_name = clientName, …) which the
abstract network outcome `net` answers; a falsy client_id in an otherwise
successful response is itself a failure, optional fields pass through. -/
def registerClient (registrationEndpoint redirectUri clientName : String)
    (net : Except String (FetchResult RegistrationResponse)) :
    Except String RegisteredClient :=
  match fetchJSON registrationEndpoint net with
  | .error e => .error e
  | .ok result =>
      if truthy result.client_id then
        .ok { clientId := result.client_id.getD ""
              clientSecret := result.client_secret
              clientIdIssuedAt := result.client_id_issued_at
              clientSecretExpiresAt := result.client_secret_expires_at }
      else
        .error missingClientIdMsg

/-! ## Token exchange (src/oauth.ts, exchangeCodeForTokens, lines 143-176) -/

/-- The JSON body returned by the token endpoint, all fields as sent. -/
structure TokenResponseJson where
  access_token : Option String
  refresh_token : Option String
  expires_in : Option Nat
  scope : Option String
  token_type : Option String
deriving DecidableEq, Repr

structure TokenResponse where
  access_token : String
  refresh_token : Option String
  expires_in : Option Nat
  scope : Option String
  token_type : String
deriving DecidableEq, Repr

def missingAccessTokenMsg : String := "Token response missing access_token"

/-- src/oauth.ts exchangeCodeForTokens. The five string arguments form the
POST body answered by `net`. A falsy access_token fails; refresh_token,
expires_in and scope pass through; token_type is
`(result.token_type as string) || "Bearer"`, i.e. Bearer when the field is
absent or the empty string. -/
def exchangeCodeForTokens (tokenEndpoint code codeVerifier clientId redirectUri : String)
    (net : Except String (FetchResult TokenResponseJson)) : Except String TokenResponse :=
  match fetchJSON tokenEndpoint net with
  | .error e => .error e
  | .ok result =>
      if truthy result.access_token then
        .ok { access_token := result.access_token.getD ""
              refresh_token := result.refresh_token
              expires_in := result.expires_in
              scope := result.scope
              token_type :=
                match result.token_type with
                | some t => if t = "" then "Bearer" else t
                | none => "Bearer" }
      else
        .error missingAccessTokenMsg

/-! ## Storage (src/storage.ts) -/

structure Tokens where
  accessToken : String
  refreshToken : Option String
  expiresAt : Option Nat
  scope : Option String
deriving DecidableEq, Repr

structure ClientInfo where
  clientId : String
  clientSecret : Option String
  clientIdIssuedAt : Option Nat
  clientSecretExpiresAt : Option Nat
deriving DecidableEq, Repr

/-- src/storage.ts AuthEntry: every field optional. -/
structure AuthEntry where
  tokens : Option Tokens := none
  clientInfo : Option ClientInfo := none
  codeVerifier : Option String := none
  oauthState : Option String := none
  serverUrl : Option String := none
deriving DecidableEq, Repr

/-- src/storage.ts AuthFile: a JS object mapping server-names to entries,
modelled as an association list with unique-key update. -/
abbrev AuthFile := List (String × AuthEntry)

/-- Property read `data[k]` on the JS object. -/
def lookupEntry (f : AuthFile) (k : String) : Option AuthEntry :=
  match f with
  | [] => none
  | (k1, v) :: rest => if k1 = k then some v else lookupEntry rest k

/-- Property write `data[k] = v` on the JS object: replaces the binding in
place when the key exists, appends it otherwise. -/
def setEntry (f : AuthFile) (k : String) (v : AuthEntry) : AuthFile :=
  match f with
  | [] => [(k, v)]
  | (k1, v1) :: rest => if k1 = k then (k, v) :: rest else (k1, v1) :: setEntry rest k v

/-- src/storage.ts readAuthFile, lines 39-46. `readResult` is the outcome of
fs.readFileSync (none when the read throws: missing or unreadable file);
`parseJson` is JSON.parse, none when it throws on malformed content. The
try/catch returns the empty mapping on any failure. The return type AuthFile
(not an Except) is the never-throws totality of the function. -/
def readAuthFile (readResult : Option String) (parseJson : String → Option AuthFile) :
    AuthFile :=
  match readResult with
  | none => []
  | some content =>
      match parseJson content with
      | none => []
      | some data => data

theorem lookupEntry_setEntry_self (f : AuthFile) (k : String) (v : AuthEntry) :
    lookupEntry (setEntry f k v) k = some v := by
  induction f with
  | nil => simp [setEntry, lookupEntry]
  | cons hd tl ih =>
      obtain ⟨k1, v1⟩ := hd
      by_cases h : k1 = k <;> simp [setEntry, lookupEntry, h, ih]

theorem lookupEntry_setEntry_other (f : AuthFile) (k k9 : String) (v : AuthEntry)
    (h : k9 ≠ k) : lookupEntry (setEntry f k v) k9 = lookupEntry f k9 := by
  have h2 : ¬ k = k9 := fun hh => h hh.symm
  induction f with
  | nil => simp [setEntry, lookupEntry, h2]
  | cons hd tl ih =>
      obtain ⟨k1, v1⟩ := hd
      by_cases h1 : k1 = k
      · subst h1
        simp [setEntry, lookupEntry, h2]
      · simp [setEntry, lookupEntry, h1, ih]

/-! ## Callback listener (src/server.ts, startCallbackServer, lines 25-109)

The listener is an event-driven state machine. An event is either an HTTP
request reaching the request handler or the firing of the 120s timeout
timer (Node fires the timer callback exactly once unless clearTimeout ran
first, so a complete execution trace contains the timeoutFire event; the
`timerCleared` flag makes a fire after clearTimeout a no-op, matching Node).
A request carries the raw url (for the startsWith "/callback" check) and
the query parameters the handler extracts from it (`url.searchParams.get`),
none when absent. The server-error event of lines 89-103 fires before the
listener is accepting requests (a bind failure such as EADDRINUSE); it is
outside this per-request machine. -/

structure CallbackRequest where
  url : String
  code : Option String
  state : Option String
  error : Option String
  errorDescription : Option String
deriving DecidableEq, Repr

/-- What the promise of startCallbackServer delivers to the caller. -/
inductive CallbackOutcome where
  | resolve (code state : String)
  | reject (message : String)
deriving DecidableEq, Repr

/-- The mutable state of the closure: the `settled` guard, whether
clearTimeout has run, and whether server.close() has run. -/
structure ListenerState where
  settled : Bool
  timerCleared : Bool
  serverClosed : Bool
deriving DecidableEq, Repr

def initialListener : ListenerState :=
  { settled := false, timerCleared := false, serverClosed := false }

/-- The cleanup() helper of lines 84-87: clearTimeout(timeout); server.close(). -/
def cleanup (s : ListenerState) : ListenerState :=
  { s with timerCleared := true, serverClosed := true }

def authErrorMsg (e : String) (d : Option String) : String :=
  "Authorization error: " ++ e ++ (if truthy d then " - " ++ d.getD "" else "")

def timeoutMsg : String := "Timed out waiting for authorization callback (120s)"

/-- The request handler of lines 32-74: 404 outside /callback; a truthy
`error` parameter renders the error page, cleans up and rejects (once);
a falsy `code` or `state` answers 400 and leaves the listener running;
otherwise the success page is rendered, cleanup runs and {code, state}
resolves the promise (once). -/
def handleRequest (s : ListenerState) (r : CallbackRequest) :
    ListenerState × Option CallbackOutcome :=
  if !(r.url.startsWith "/callback") then
    (s, none)
  else if truthy r.error then
    let s1 := cleanup s
    if !s1.settled then
      ({ s1 with settled := true },
        some (.reject (authErrorMsg (r.error.getD "") r.errorDescription)))
    else (s1, none)
  else if !(truthy r.code) || !(truthy r.state) then
    (s, none)
  else
    let s1 := cleanup s
    if !s1.settled then
      ({ s1 with settled := true }, some (.resolve (r.code.getD "") (r.state.getD "")))
    else (s1, none)

/-- The setTimeout callback of lines 76-82; a cleared timer never fires. -/
def handleTimeoutFire (s : ListenerState) : ListenerState × Option CallbackOutcome :=
  if s.timerCleared then
    (s, none)
  else
    let s1 := cleanup s
    if !s1.settled then ({ s1 with settled := true }, some (.reject timeoutMsg))
    else (s1, none)

inductive ListenerEvent where
  | request (r : CallbackRequest)
  | timeoutFire
deriving DecidableEq, Repr

def listenerStep (s : ListenerState) : ListenerEvent → ListenerState × Option CallbackOutcome
  | .request r => handleRequest s r
  | .timeoutFire => handleTimeoutFire s

/-- Run the listener over a sequence of events, collecting every outcome
delivered to the caller (each resolve/reject that passes the settled guard). -/
def runListener : ListenerState → List ListenerEvent → ListenerState × List CallbackOutcome
  | s, [] => (s, [])
  | s, e :: rest =>
      let (s1, out) := listenerStep s e
      let (s2, outs) := runListener s1 rest
      (s2, out.toList ++ outs)

/-- src/server.ts startCallbackServer as the machine run from its initial
state over the events of one execution. -/
def startCallbackServer (evs : List ListenerEvent) : ListenerState × List CallbackOutcome :=
  runListener initialListener evs

/-! ### Listener lemmas

Every state reachable from initialListener has its three flags equal: the
settled guard flips exactly when cleanup has just cleared the timer and
closed the server. -/

theorem listenerStep_same (b : Bool) (e : ListenerEvent) :
    listenerStep ⟨b, b, b⟩ e = (⟨b, b, b⟩, none) ∨
    (b = false ∧ ∃ o, listenerStep ⟨false, false, false⟩ e = (⟨true, true, true⟩, some o)) := by
  cases e with
  | timeoutFire =>
      cases b
      · exact Or.inr ⟨rfl, .reject timeoutMsg, by decide⟩
      · exact Or.inl (by decide)
  | request r =>
      by_cases h1 : r.url.startsWith "/callback"
      · by_cases h2 : truthy r.error
        · cases b
          · exact Or.inr ⟨rfl, .reject (authErrorMsg (r.error.getD "") r.errorDescription),
              by simp [listenerStep, handleRequest, cleanup, h1, h2]⟩
          · exact Or.inl (by simp [listenerStep, handleRequest, cleanup, h1, h2])
        · by_cases h3 : truthy r.code
          · by_cases h4 : truthy r.state
            · cases b
              · exact Or.inr ⟨rfl, .resolve (r.code.getD "") (r.state.getD ""),
                  by simp [listenerStep, handleRequest, cleanup, h1, h2, h3, h4]⟩
              · exact Or.inl
                  (by simp [listenerStep, handleRequest, cleanup, h1, h2, h3, h4])
            · exact Or.inl (by simp [listenerStep, handleRequest, h1, h2, h3, h4])
          · exact Or.inl (by simp [listenerStep, handleRequest, h1, h2, h3])
      · exact Or.inl (by simp [listenerStep, handleRequest, h1])

theorem runListener_spec : ∀ (evs : List ListenerEvent) (b : Bool),
    ∃ (b1 : Bool) (outs : List CallbackOutcome),
      runListener ⟨b, b, b⟩ evs = (⟨b1, b1, b1⟩, outs) ∧
      (b = true → b1 = true) ∧
      outs.length + (if b then 1 else 0) = (if b1 then 1 else 0) ∧
      (ListenerEvent.timeoutFire ∈ evs → b1 = true)
  | [], b => ⟨b, [], by simp [runListener], fun h => h, by simp, by simp⟩
  | e :: rest, b => by
      rcases listenerStep_same b e with hstep | ⟨hb, o, hstep⟩
      · obtain ⟨b1, outs, hrun, hmono, hlen, htm⟩ := runListener_spec rest b
        refine ⟨b1, outs, ?_, hmono, hlen, ?_⟩
        · simp [runListener, hstep, hrun]
        · intro hmem
          rcases List.mem_cons.mp hmem with he | he
          · subst he
            cases b
            · exact absurd hstep (by decide)
            · exact hmono rfl
          · exact htm he
      · subst hb
        obtain ⟨b1, outs, hrun, hmono, hlen, htm⟩ := runListener_spec rest true
        have hb1 : b1 = true := hmono rfl
        subst hb1
        refine ⟨true, o :: outs, ?_, fun _ => rfl, ?_, fun _ => rfl⟩
        · simp [runListener, hstep, hrun, Option.toList]
        · have h0 : outs.length = 0 := by simpa using hlen
          simp [h0]

/-- C2: for every execution of the callback listener started by
startCallbackServer — any sequence of requests at any paths (N≥2 requests to
/callback allowed) interleaved with the timeout — at most one outcome is ever
delivered to the caller; whenever an outcome has been delivered the listening
socket has been closed; and on a complete execution (one whose event sequence
contains the timer firing, which Node guarantees unless clearTimeout ran,
and a fire after clearTimeout is a no-op here) exactly one outcome (resolve
or reject) is delivered and the socket is closed, releasing the port. -/
theorem startCallbackServer_single_outcome (evs : List ListenerEvent) :
    (startCallbackServer evs).2.length ≤ 1 ∧
    ((startCallbackServer evs).2.length = 1 → (startCallbackServer evs).1.serverClosed = true) ∧
    (ListenerEvent.timeoutFire ∈ evs →
      (startCallbackServer evs).2.length = 1 ∧
        (startCallbackServer evs).1.serverClosed = true) := by
  obtain ⟨b1, outs, hrun, _, hlen, htm⟩ := runListener_spec evs false
  have hrun2 : startCallbackServer evs = (⟨b1, b1, b1⟩, outs) := hrun
  rw [hrun2]
  cases b1 with
  | false =>
      have h0 : outs.length = 0 := by simpa using hlen
      refine ⟨by simp [h0], ?_, ?_⟩
      · intro h1
        simp [h0] at h1
      · intro hmem
        exact absurd (htm hmem) (by decide)
  | true =>
      have h1 : outs.length = 1 := by simpa using hlen
      exact ⟨by simp [h1], fun _ => rfl, fun _ => ⟨by simp [h1], rfl⟩⟩

/-- A terminal request used by the C2 witness run. -/
def goodRequest : CallbackRequest :=
  { url := "/callback?code=authcode1&state=Y", code := some "authcode1"
    state := some "Y", error := none, errorDescription := none }

/-- Witness for C2: a concrete run with two /callback requests racing the
timeout delivers exactly one outcome and closes the socket. -/
theorem startCallbackServer_single_outcome_witness :
    (ListenerEvent.timeoutFire ∈
        [ListenerEvent.request goodRequest, ListenerEvent.request goodRequest,
          ListenerEvent.timeoutFire]) ∧
    (startCallbackServer
        [ListenerEvent.request goodRequest, ListenerEvent.request goodRequest,
          ListenerEvent.timeoutFire]).2.length = 1 ∧
    (startCallbackServer
        [ListenerEvent.request goodRequest, ListenerEvent.request goodRequest,
          ListenerEvent.timeoutFire]).1.serverClosed = true :=
  ⟨by decide, (startCallbackServer_single_outcome _).2.2 (by decide)⟩

/-! ## The orchestration flow (src/index.ts, main, steps 1-8)

main is a linear fail-fast sequence: read auth file, discover endpoints,
require a registration endpoint, register, generate PKCE and state, write
the checkpoint entry, open the browser, await the callback, verify state,
exchange the code, write the final entry. The flow is embedded as a pure
function of the configuration and a world record holding the outcome of
every external interaction, returning the Except result together with the
trace of externally visible actions (calls issued and files written).
buildAuthorizationUrl and openBrowser only shape the browser URL and are
output-only I/O glue with no effect on the flow's data or error paths. -/

structure FlowConfig where
  serverName : String
  url : String
  clientName : String
  callbackPort : Nat
  output : String
deriving DecidableEq, Repr

/-- What the callback server resolves with (src/server.ts CallbackResult). -/
structure CallbackResult where
  code : String
  state : String
deriving DecidableEq, Repr

/-- The outcomes of every external interaction of one flow run. -/
structure FlowWorld where
  initialRead : AuthFile
  origin : String
  discoveryNet : Except String (FetchResult OAuthMetadata)
  registrationNet : Except String (FetchResult RegistrationResponse)
  verifierBytes : List Nat
  stateUuid : String
  callback : Except String CallbackResult
  tokenNet : Except String (FetchResult TokenResponseJson)
  now : Nat

/-- The externally visible actions of a flow run, in program order. -/
inductive FlowAction where
  | discoverCall (wellKnown : String)
  | registerCall (endpoint redirectUri clientName : String)
  | writeFile (data : AuthFile) (path : String)
  | awaitCallback (port : Nat)
  | exchangeCall (tokenEndpoint code codeVerifier clientId redirectUri : String)
deriving DecidableEq, Repr

def noRegistrationMsg : String :=
  "Server does not support dynamic client registration (no registration_endpoint in metadata)"

def stateMismatchMsg : String := "OAuth state mismatch — possible CSRF attack"

/-- The redirect URI main derives from the callback port. -/
def redirectUriFor (port : Nat) : String :=
  "http://localhost:" ++ toString port ++ "/callback"

/-- src/index.ts main, steps 1-8, with `sha256` the crypto digest parameter
threaded to generatePKCE. Mirrors the source statement by statement;
authData is the JS object threaded through both writes. -/
def runFlow (sha256 : List Nat → List Nat) (cfg : FlowConfig) (w : FlowWorld) :
    Except String AuthFile × List FlowAction :=
  let redirectUri := redirectUriFor cfg.callbackPort
  let authData := w.initialRead
  let tr0 := [FlowAction.discoverCall (wellKnownUrl w.origin)]
  match discoverOAuthEndpoints w.origin w.discoveryNet with
  | .error e => (.error e, tr0)
  | .ok endpoints =>
      if truthy endpoints.registrationEndpoint then
        let regEndpoint := endpoints.registrationEndpoint.getD ""
        let tr1 := tr0 ++ [FlowAction.registerCall regEndpoint redirectUri cfg.clientName]
        match registerClient regEndpoint redirectUri cfg.clientName w.registrationNet with
        | .error e => (.error e, tr1)
        | .ok client =>
            let pkce := generatePKCE sha256 w.verifierBytes
            let state := w.stateUuid
            let entry : AuthEntry :=
              { clientInfo := some { clientId := client.clientId
                                     clientSecret := client.clientSecret
                                     clientIdIssuedAt := client.clientIdIssuedAt
                                     clientSecretExpiresAt := client.clientSecretExpiresAt }
                codeVerifier := some pkce.codeVerifier
                oauthState := some state
                serverUrl := some cfg.url }
            let authData1 := setEntry authData cfg.serverName entry
            let tr2 := tr1 ++ [FlowAction.writeFile authData1 cfg.output]
            let tr3 := tr2 ++ [FlowAction.awaitCallback cfg.callbackPort]
            match w.callback with
            | .error e => (.error e, tr3)
            | .ok callback =>
                if callback.state ≠ state then
                  (.error stateMismatchMsg, tr3)
                else
                  let tr4 := tr3 ++ [FlowAction.exchangeCall endpoints.tokenEndpoint
                    callback.code pkce.codeVerifier client.clientId redirectUri]
                  match exchangeCodeForTokens endpoints.tokenEndpoint callback.code
                      pkce.codeVerifier client.clientId redirectUri w.tokenNet with
                  | .error e => (.error e, tr4)
                  | .ok tokenResponse =>
                      let entry2 : AuthEntry :=
                        { entry with
                          tokens := some
                            { accessToken := tokenResponse.access_token
                              refreshToken := tokenResponse.refresh_token
                              expiresAt :=
                                if truthyNat tokenResponse.expires_in then
                                  some (w.now + tokenResponse.expires_in.getD 0)
                                else none
                              scope := tokenResponse.scope }
                          codeVerifier := none
                          oauthState := none }
                      let authData2 := setEntry authData1 cfg.serverName entry2
                      (.ok authData2, tr4 ++ [FlowAction.writeFile authData2 cfg.output])
      else
        (.error noRegistrationMsg, tr0)

/-! ## Flow theorems -/

/-- C1: in every flow whose callback delivers a code and a state, if the
delivered state differs from the state generated for this flow, the flow
fails with the state-mismatch error and no token-exchange request is ever
issued: exchangeCodeForTokens is never called. -/
theorem runFlow_state_mismatch (sha256 : List Nat → List Nat) (cfg : FlowConfig)
    (w : FlowWorld) (eps : OAuthEndpoints) (client : RegisteredClient) (cb : CallbackResult)
    (hdisc : discoverOAuthEndpoints w.origin w.discoveryNet = .ok eps)
    (hregEp : truthy eps.registrationEndpoint = true)
    (hreg : registerClient (eps.registrationEndpoint.getD "") (redirectUriFor cfg.callbackPort)
        cfg.clientName w.registrationNet = .ok client)
    (hcb : w.callback = .ok cb)
    (hne : cb.state ≠ w.stateUuid) :
    (runFlow sha256 cfg w).1 = .error stateMismatchMsg ∧
    ∀ te c v ci ru, FlowAction.exchangeCall te c v ci ru ∉ (runFlow sha256 cfg w).2 := by
  simp only [runFlow, hdisc, hregEp, hreg, hcb, if_true, ne_eq, hne, not_false_eq_true,
    if_pos]
  refine ⟨by trivial, ?_⟩
  intro te c v ci ru hmem
  simp at hmem

/-- Witness data: a configuration matching the CLI defaults. -/
def cfgW : FlowConfig :=
  { serverName := "figma", url := "https://mcp.example.com/mcp", clientName := "Codex"
    callbackPort := 19876, output := "/tmp/mcp-auth.json" }

def metadataW : OAuthMetadata :=
  { authorization_endpoint := some "https://ex.com/auth"
    token_endpoint := some "https://ex.com/token"
    registration_endpoint := some "https://ex.com/register" }

def epsW : OAuthEndpoints :=
  { authorizationEndpoint := "https://ex.com/auth", tokenEndpoint := "https://ex.com/token"
    registrationEndpoint := some "https://ex.com/register" }

def discoveryNetW : Except String (FetchResult OAuthMetadata) :=
  .ok { ok := true, status := 200, statusText := "OK", bodyText := "", json := .ok metadataW }

def registrationNetW : Except String (FetchResult RegistrationResponse) :=
  .ok { ok := true, status := 200, statusText := "OK", bodyText := ""
        json := .ok { client_id := some "cid123", client_secret := none
                      client_id_issued_at := none, client_secret_expires_at := none } }

def clientW : RegisteredClient :=
  { clientId := "cid123", clientSecret := none, clientIdIssuedAt := none
    clientSecretExpiresAt := none }

/-- A world whose callback returns state "X" while the generated state is "Y". -/
def wMismatch : FlowWorld :=
  { initialRead := [], origin := "https://mcp.example.com"
    discoveryNet := discoveryNetW, registrationNet := registrationNetW
    verifierBytes := [], stateUuid := "Y"
    callback := .ok { code := "abc", state := "X" }
    tokenNet := .error "unused", now := 1700000000 }

/-- Witness for C1 at the concrete P4 input (code "abc", state "X" vs
generated "Y"). -/
theorem runFlow_state_mismatch_witness :
    (runFlow (fun bs => bs) cfgW wMismatch).1 = .error stateMismatchMsg ∧
    FlowAction.exchangeCall "https://ex.com/token" "abc" "" "cid123" (redirectUriFor 19876)
      ∉ (runFlow (fun bs => bs) cfgW wMismatch).2 :=
  have h := runFlow_state_mismatch (fun bs => bs) cfgW wMismatch epsW clientW
    { code := "abc", state := "X" } (by rfl) (by rfl) (by rfl) (by rfl) (by decide)
  ⟨h.1, h.2 "https://ex.com/token" "abc" "" "cid123" (redirectUriFor 19876)⟩

/-- C6: in every flow whose endpoint discovery succeeds with metadata that
contains no registration_endpoint, the flow fails with the
unsupported-server error and no registration request is sent: registerClient
is never invoked. -/
theorem runFlow_no_registration (sha256 : List Nat → List Nat) (cfg : FlowConfig)
    (w : FlowWorld) (eps : OAuthEndpoints)
    (hdisc : discoverOAuthEndpoints w.origin w.discoveryNet = .ok eps)
    (hnone : eps.registrationEndpoint = none) :
    (runFlow sha256 cfg w).1 = .error noRegistrationMsg ∧
    ∀ ep ru cn, FlowAction.registerCall ep ru cn ∉ (runFlow sha256 cfg w).2 := by
  have hfalse : truthy eps.registrationEndpoint = false := by
    rw [hnone]; rfl
  simp only [runFlow, hdisc, hfalse, Bool.false_eq_true, if_false]
  refine ⟨by trivial, ?_⟩
  intro ep ru cn hmem
  simp at hmem

/-- Discovery metadata lacking registration_endpoint. -/
def metadataNoReg : OAuthMetadata :=
  { authorization_endpoint := some "https://ex.com/auth"
    token_endpoint := some "https://ex.com/token"
    registration_endpoint := none }

/-- A world whose discovery metadata lacks registration_endpoint. -/
def wNoReg : FlowWorld :=
  { initialRead := [], origin := "https://mcp.example.com"
    discoveryNet := .ok { ok := true, status := 200, statusText := "OK", bodyText := ""
                          json := .ok metadataNoReg }
    registrationNet := .error "unused", verifierBytes := [], stateUuid := "Y"
    callback := .error "unused", tokenNet := .error "unused", now := 1700000000 }

/-- Witness for C6 at concrete discovery metadata lacking registration_endpoint. -/
theorem runFlow_no_registration_witness :
    (runFlow (fun bs => bs) cfgW wNoReg).1 = .error noRegistrationMsg ∧
    FlowAction.registerCall "https://ex.com/register" (redirectUriFor 19876) "Codex"
      ∉ (runFlow (fun bs => bs) cfgW wNoReg).2 :=
  have h := runFlow_no_registration (fun bs => bs) cfgW wNoReg
    { authorizationEndpoint := "https://ex.com/auth", tokenEndpoint := "https://ex.com/token"
      registrationEndpoint := none } (by rfl) (by rfl)
  ⟨h.1, h.2 "https://ex.com/register" (redirectUriFor 19876) "Codex"⟩

/-- A successful token exchange always carries a non-empty access token
(the falsy check of line 165 rejects both an absent and an empty one). -/
theorem exchange_ok_access_token_nonempty (a b c d e : String)
    (net : Except String (FetchResult TokenResponseJson)) (tok : TokenResponse)
    (h : exchangeCodeForTokens a b c d e net = .ok tok) : tok.access_token ≠ "" := by
  rcases net with m | r
  · simp [exchangeCodeForTokens, fetchJSON] at h
  · simp only [exchangeCodeForTokens, fetchJSON] at h
    by_cases hok : r.ok = true
    · rw [if_pos hok] at h
      rcases hj : r.json with jm | j
      · rw [hj] at h
        simp at h
      · rw [hj] at h
        by_cases ha : truthy j.access_token = true
        · simp only [ha, if_true, Except.ok.injEq] at h
          rcases hat : j.access_token with _ | s
          · rw [hat] at ha
            simp [truthy] at ha
          · rw [hat] at ha h
            simp only [truthy, decide_eq_true_eq] at ha
            rw [← h]
            simpa using ha
        · simp [ha] at h
    · rw [if_neg hok] at h
      simp at h

/-- C3: after every successful flow, the AuthEntry stored for the flow's
server-name in the file of the final write has no codeVerifier and no
oauthState, and holds tokens with a non-empty accessToken: the transient
flow secrets live only between the checkpoint write and the final write. -/
theorem runFlow_checkpoint_hygiene (sha256 : List Nat → List Nat) (cfg : FlowConfig)
    (w : FlowWorld) (af : AuthFile)
    (h : (runFlow sha256 cfg w).1 = .ok af) :
    ∃ e t, lookupEntry af cfg.serverName = some e ∧
      e.codeVerifier = none ∧ e.oauthState = none ∧
      e.tokens = some t ∧ t.accessToken ≠ "" ∧
      ∃ pre, (runFlow sha256 cfg w).2 = pre ++ [FlowAction.writeFile af cfg.output] := by
  rcases hdisc : discoverOAuthEndpoints w.origin w.discoveryNet with m | eps
  · simp only [runFlow, hdisc] at h
    exact Except.noConfusion h
  · by_cases hre : truthy eps.registrationEndpoint = true
    · rcases hreg : registerClient (eps.registrationEndpoint.getD "")
          (redirectUriFor cfg.callbackPort) cfg.clientName w.registrationNet with m | client
      · simp only [runFlow, hdisc, hre, if_true, hreg] at h
        exact Except.noConfusion h
      · rcases hcb : w.callback with m | cb
        · simp only [runFlow, hdisc, hre, if_true, hreg, hcb] at h
          exact Except.noConfusion h
        · by_cases hst : cb.state = w.stateUuid
          · rcases hex : exchangeCodeForTokens eps.tokenEndpoint cb.code
                (generatePKCE sha256 w.verifierBytes).codeVerifier client.clientId
                (redirectUriFor cfg.callbackPort) w.tokenNet with m | tok
            · simp only [runFlow, hdisc, hre, if_true, hreg, hcb, ne_eq, hst,
                not_true_eq_false, if_false, hex] at h
              exact Except.noConfusion h
            · simp only [runFlow, hdisc, hre, if_true, hreg, hcb, ne_eq, hst,
                not_true_eq_false, if_false, hex, Except.ok.injEq] at h
              subst h
              refine ⟨_, _, lookupEntry_setEntry_self _ _ _, rfl, rfl, rfl,
                exchange_ok_access_token_nonempty _ _ _ _ _ _ _ hex, ?_⟩
              simp only [runFlow, hdisc, hre, if_true, hreg, hcb, ne_eq, hst,
                not_true_eq_false, if_false, hex]
              exact ⟨_, rfl⟩
          · simp only [runFlow, hdisc, hre, if_true, hreg, hcb, ne_eq, hst,
              not_false_eq_true, if_true] at h
            exact Except.noConfusion h
    · simp only [runFlow, hdisc, eq_false_of_ne_true hre, Bool.false_eq_true, if_false] at h
      exact Except.noConfusion h

def tokenNetW : Except String (FetchResult TokenResponseJson) :=
  .ok { ok := true, status := 200, statusText := "OK", bodyText := ""
        json := .ok { access_token := some "tok1", refresh_token := none
                      expires_in := some 3600, scope := none, token_type := some "Bearer" } }

/-- A world in which every step of the flow succeeds; the auth file read at
flow start already holds an entry for another server-name. -/
def wSuccess : FlowWorld :=
  { initialRead := [("other", {})], origin := "https://mcp.example.com"
    discoveryNet := discoveryNetW, registrationNet := registrationNetW
    verifierBytes := [], stateUuid := "Y"
    callback := .ok { code := "authcode1", state := "Y" }
    tokenNet := tokenNetW, now := 1700000000 }

/-- The auth file the successful witness flow returns. -/
def afSuccess : AuthFile :=
  match (runFlow (fun bs => bs) cfgW wSuccess).1 with
  | .ok a => a
  | .error _ => []

/-- Witness for C3: the concrete successful flow for server-name "figma"
stores an entry with no transient secrets and a non-empty access token. -/
theorem runFlow_checkpoint_hygiene_witness :
    (runFlow (fun bs => bs) cfgW wSuccess).1 = .ok afSuccess ∧
    ∃ e t, lookupEntry afSuccess cfgW.serverName = some e ∧
      e.codeVerifier = none ∧ e.oauthState = none ∧
      e.tokens = some t ∧ t.accessToken ≠ "" ∧
      ∃ pre, (runFlow (fun bs => bs) cfgW wSuccess).2 =
        pre ++ [FlowAction.writeFile afSuccess cfgW.output] :=
  ⟨rfl, runFlow_checkpoint_hygiene (fun bs => bs) cfgW wSuccess afSuccess rfl⟩

/-- C9: every file written during a flow for one server-name agrees with the
mapping read at flow start on every other key: both the checkpoint write
and the final write change at most the entry of the flow's server-name. -/
theorem runFlow_frame (sha256 : List Nat → List Nat) (cfg : FlowConfig) (w : FlowWorld)
    (k : String) (hk : k ≠ cfg.serverName) :
    ∀ data p, FlowAction.writeFile data p ∈ (runFlow sha256 cfg w).2 →
      lookupEntry data k = lookupEntry w.initialRead k := by
  intro data p hmem
  rcases hdisc : discoverOAuthEndpoints w.origin w.discoveryNet with m | eps
  · simp only [runFlow, hdisc] at hmem
    simp at hmem
  · by_cases hre : truthy eps.registrationEndpoint = true
    · rcases hreg : registerClient (eps.registrationEndpoint.getD "")
          (redirectUriFor cfg.callbackPort) cfg.clientName w.registrationNet with m | client
      · simp only [runFlow, hdisc, hre, if_true, hreg] at hmem
        simp at hmem
      · rcases hcb : w.callback with m | cb
        · simp only [runFlow, hdisc, hre, if_true, hreg, hcb] at hmem
          simp at hmem
          obtain ⟨hdata, hp⟩ := hmem
          rw [hdata]
          exact lookupEntry_setEntry_other _ _ _ _ hk
        · by_cases hst : cb.state = w.stateUuid
          · rcases hex : exchangeCodeForTokens eps.tokenEndpoint cb.code
                (generatePKCE sha256 w.verifierBytes).codeVerifier client.clientId
                (redirectUriFor cfg.callbackPort) w.tokenNet with m | tok
            · simp only [runFlow, hdisc, hre, if_true, hreg, hcb, ne_eq, hst,
                not_true_eq_false, if_false, hex] at hmem
              simp at hmem
              obtain ⟨hdata, hp⟩ := hmem
              rw [hdata]
              exact lookupEntry_setEntry_other _ _ _ _ hk
            · simp only [runFlow, hdisc, hre, if_true, hreg, hcb, ne_eq, hst,
                not_true_eq_false, if_false, hex] at hmem
              simp at hmem
              rcases hmem with ⟨hdata, hp⟩ | ⟨hdata, hp⟩
              · rw [hdata]
                exact lookupEntry_setEntry_other _ _ _ _ hk
              · rw [hdata]
                rw [lookupEntry_setEntry_other _ _ _ _ hk]
                exact lookupEntry_setEntry_other _ _ _ _ hk
          · simp only [runFlow, hdisc, hre, if_true, hreg, hcb, ne_eq, hst,
              not_false_eq_true, if_true] at hmem
            simp at hmem
            obtain ⟨hdata, hp⟩ := hmem
            rw [hdata]
            exact lookupEntry_setEntry_other _ _ _ _ hk
    · simp only [runFlow, hdisc, eq_false_of_ne_true hre, Bool.false_eq_true, if_false] at hmem
      simp at hmem

/-- The checkpoint file the concrete witness flow writes first: the initial
"other" entry plus the fresh "figma" entry carrying the transient secrets.
With the identity digest and no random bytes the verifier and challenge
are the empty string. -/
def checkpointW : AuthFile :=
  [("other", {}),
   ("figma", { clientInfo := some { clientId := "cid123", clientSecret := none
                                    clientIdIssuedAt := none, clientSecretExpiresAt := none }
               codeVerifier := some "", oauthState := some "Y"
               serverUrl := some "https://mcp.example.com/mcp" })]

/-- Witness for C9: in the concrete successful flow, the checkpoint write
leaves the entry of the other server-name exactly as read at flow start. -/
theorem runFlow_frame_witness :
    ("other" ≠ cfgW.serverName) ∧
    lookupEntry checkpointW "other" = lookupEntry wSuccess.initialRead "other" :=
  ⟨by decide,
    runFlow_frame (fun bs => bs) cfgW wSuccess "other" (by decide) checkpointW cfgW.output
      (by decide)⟩

/-! ## PKCE theorems -/

/-- C4: for every PKCEPair returned by generatePKCE (over every digest
function standing for SHA-256 and every draw of the random bytes),
codeChallenge is exactly the unpadded base64url encoding of the digest of
the codeVerifier's bytes — a pure deterministic function of the verifier —
and neither codeVerifier nor codeChallenge contains a padding character. -/
theorem generatePKCE_challenge_relation (sha256 : List Nat → List Nat) (bytes : List Nat) :
    (generatePKCE sha256 bytes).codeChallenge =
      challengeOf sha256 (generatePKCE sha256 bytes).codeVerifier ∧
    ((generatePKCE sha256 bytes).codeChallenge.data.all fun c => c != '=') = true ∧
    ((generatePKCE sha256 bytes).codeVerifier.data.all fun c => c != '=') = true := by
  refine ⟨rfl, ?_, ?_⟩
  · exact unreserved_no_pad
      (base64urlChars_all_unreserved
        (sha256 (strBytes (generatePKCE sha256 bytes).codeVerifier)))
  · apply unreserved_no_pad
    show ((base64urlChars bytes).filter isUnreservedChar).all isUnreservedChar = true
    rw [List.all_eq_true]
    intro c hc
    exact (List.mem_filter.mp hc).2

/-- C5: every codeVerifier produced by generatePKCE from the 32 random bytes
consists only of characters in [A-Za-z0-9\-._~], and its length lies within
the RFC 7636 bounds 43..128 (it is in fact always exactly 43: the strip of
the regex removes nothing from a base64url string). -/
theorem generatePKCE_verifier_format (sha256 : List Nat → List Nat) (bytes : List Nat)
    (h : bytes.length = 32) :
    ((generatePKCE sha256 bytes).codeVerifier.data.all isUnreservedChar) = true ∧
    43 ≤ (generatePKCE sha256 bytes).codeVerifier.length ∧
    (generatePKCE sha256 bytes).codeVerifier.length ≤ 128 := by
  have hall := base64urlChars_all_unreserved bytes
  have hfilter : (base64urlChars bytes).filter isUnreservedChar = base64urlChars bytes :=
    List.filter_eq_self.mpr (by rw [List.all_eq_true] at hall; exact hall)
  have hlen : (generatePKCE sha256 bytes).codeVerifier.length = 43 := by
    show ((base64urlChars bytes).filter isUnreservedChar).length = 43
    rw [hfilter, base64urlChars_length, h]
  refine ⟨?_, by omega, by omega⟩
  show ((base64urlChars bytes).filter isUnreservedChar).all isUnreservedChar = true
  rw [List.all_eq_true]
  intro c hc
  exact (List.mem_filter.mp hc).2

/-- Witness for C5 at a concrete draw of 32 random bytes. -/
theorem generatePKCE_verifier_format_witness :
    (List.replicate 32 0).length = 32 ∧
    ((generatePKCE (fun bs => bs) (List.replicate 32 0)).codeVerifier.data.all
        isUnreservedChar) = true ∧
    43 ≤ (generatePKCE (fun bs => bs) (List.replicate 32 0)).codeVerifier.length ∧
    (generatePKCE (fun bs => bs) (List.replicate 32 0)).codeVerifier.length ≤ 128 :=
  ⟨by decide, generatePKCE_verifier_format (fun bs => bs) (List.replicate 32 0) (by decide)⟩

/-! ## Discovery theorems -/

theorem discover_error_net (origin m : String) :
    discoverOAuthEndpoints origin (.error m) = .error (discoverWrap origin m) := rfl

theorem discover_http_error (origin : String) (r : FetchResult OAuthMetadata)
    (hok : r.ok = false) :
    discoverOAuthEndpoints origin (.ok r) =
      .error (discoverWrap origin (httpErrorMsg (wellKnownUrl origin) r)) := by
  simp only [discoverOAuthEndpoints, fetchJSON, hok, Bool.false_eq_true, if_false]

theorem discover_bad_json (origin : String) (r : FetchResult OAuthMetadata) (m : String)
    (hok : r.ok = true) (hj : r.json = .error m) :
    discoverOAuthEndpoints origin (.ok r) = .error (discoverWrap origin m) := by
  simp only [discoverOAuthEndpoints, fetchJSON, hok, if_true, hj]

theorem discover_missing_fields (origin : String) (r : FetchResult OAuthMetadata)
    (md : OAuthMetadata) (hok : r.ok = true) (hj : r.json = .ok md)
    (hmiss : (truthy md.authorization_endpoint && truthy md.token_endpoint) = false) :
    discoverOAuthEndpoints origin (.ok r) = .error (discoverWrap origin missingFieldsMsg) := by
  simp only [discoverOAuthEndpoints, fetchJSON, hok, if_true, hj, hmiss,
    Bool.false_eq_true, if_false]

theorem discover_success (origin : String) (r : FetchResult OAuthMetadata)
    (md : OAuthMetadata) (hok : r.ok = true) (hj : r.json = .ok md)
    (hA : truthy md.authorization_endpoint = true) (hT : truthy md.token_endpoint = true) :
    discoverOAuthEndpoints origin (.ok r) =
      .ok { authorizationEndpoint := md.authorization_endpoint.getD ""
            tokenEndpoint := md.token_endpoint.getD ""
            registrationEndpoint := md.registration_endpoint } := by
  simp only [discoverOAuthEndpoints, fetchJSON, hok, if_true, hj, hA, hT,
    Bool.and_self, if_true]

/-- C7: discoverOAuthEndpoints succeeds exactly when the well-known fetch
resolved, had a 2xx status, parsed as JSON and carried non-falsy
authorization_endpoint and token_endpoint — and then returns exactly the
three extracted fields; it fails on a rejected fetch, a non-2xx status, a
malformed body, or a missing/empty required field, each time with a single
discovery error whose message extends the attempted well-known URL with the
underlying cause. -/
theorem discoverOAuthEndpoints_spec (origin : String)
    (net : Except String (FetchResult OAuthMetadata)) :
    ((∃ eps, discoverOAuthEndpoints origin net = .ok eps) ↔
      (∃ r md, net = .ok r ∧ r.ok = true ∧ r.json = .ok md ∧
        truthy md.authorization_endpoint = true ∧ truthy md.token_endpoint = true)) ∧
    (∀ msg, discoverOAuthEndpoints origin net = .error msg →
      ∃ cause, msg = "Failed to discover OAuth endpoints from " ++ wellKnownUrl origin
        ++ ": " ++ cause) ∧
    (∀ m, net = .error m →
      discoverOAuthEndpoints origin net = .error (discoverWrap origin m)) ∧
    (∀ r, net = .ok r → r.ok = false →
      discoverOAuthEndpoints origin net =
        .error (discoverWrap origin (httpErrorMsg (wellKnownUrl origin) r))) ∧
    (∀ r m, net = .ok r → r.ok = true → r.json = .error m →
      discoverOAuthEndpoints origin net = .error (discoverWrap origin m)) ∧
    (∀ r md, net = .ok r → r.ok = true → r.json = .ok md →
      (truthy md.authorization_endpoint = false ∨ truthy md.token_endpoint = false) →
      discoverOAuthEndpoints origin net = .error (discoverWrap origin missingFieldsMsg)) ∧
    (∀ r md, net = .ok r → r.ok = true → r.json = .ok md →
      truthy md.authorization_endpoint = true → truthy md.token_endpoint = true →
      discoverOAuthEndpoints origin net =
        .ok { authorizationEndpoint := md.authorization_endpoint.getD ""
              tokenEndpoint := md.token_endpoint.getD ""
              registrationEndpoint := md.registration_endpoint }) := by
  have hfail : ∀ msg, discoverOAuthEndpoints origin net = .error msg →
      ∃ cause, msg = discoverWrap origin cause := by
    intro msg hmsg
    rcases net with m | r
    · rw [discover_error_net] at hmsg
      exact ⟨m, (Except.error.injEq _ _).mp hmsg.symm⟩
    · by_cases hok : r.ok = true
      · rcases hj : r.json with jm | md
        · rw [discover_bad_json origin r jm hok hj] at hmsg
          exact ⟨jm, (Except.error.injEq _ _).mp hmsg.symm⟩
        · by_cases hA : truthy md.authorization_endpoint = true
          · by_cases hT : truthy md.token_endpoint = true
            · rw [discover_success origin r md hok hj hA hT] at hmsg
              exact Except.noConfusion hmsg
            · rw [discover_missing_fields origin r md hok hj
                (by rw [hA, eq_false_of_ne_true hT]; rfl)] at hmsg
              exact ⟨missingFieldsMsg, (Except.error.injEq _ _).mp hmsg.symm⟩
          · rw [discover_missing_fields origin r md hok hj
              (by rw [eq_false_of_ne_true hA]; rfl)] at hmsg
            exact ⟨missingFieldsMsg, (Except.error.injEq _ _).mp hmsg.symm⟩
      · rw [discover_http_error origin r (eq_false_of_ne_true hok)] at hmsg
        exact ⟨httpErrorMsg (wellKnownUrl origin) r, (Except.error.injEq _ _).mp hmsg.symm⟩
  refine ⟨?_, hfail, ?_, ?_, ?_, ?_, ?_⟩
  · constructor
    · rintro ⟨eps, heps⟩
      rcases net with m | r
      · rw [discover_error_net] at heps
        exact Except.noConfusion heps
      · by_cases hok : r.ok = true
        · rcases hj : r.json with jm | md
          · rw [discover_bad_json origin r jm hok hj] at heps
            exact Except.noConfusion heps
          · by_cases hA : truthy md.authorization_endpoint = true
            · by_cases hT : truthy md.token_endpoint = true
              · exact ⟨r, md, rfl, hok, hj, hA, hT⟩
              · rw [discover_missing_fields origin r md hok hj
                  (by rw [hA, eq_false_of_ne_true hT]; rfl)] at heps
                exact Except.noConfusion heps
            · rw [discover_missing_fields origin r md hok hj
                (by rw [eq_false_of_ne_true hA]; rfl)] at heps
              exact Except.noConfusion heps
        · rw [discover_http_error origin r (eq_false_of_ne_true hok)] at heps
          exact Except.noConfusion heps
    · rintro ⟨r, md, hnet, hok, hj, hA, hT⟩
      subst hnet
      exact ⟨_, discover_success origin r md hok hj hA hT⟩
  · intro m hm
    subst hm
    exact discover_error_net origin m
  · intro r hr hok
    subst hr
    exact discover_http_error origin r hok
  · intro r m hr hok hj
    subst hr
    exact discover_bad_json origin r m hok hj
  · intro r md hr hok hj hmiss
    subst hr
    refine discover_missing_fields origin r md hok hj ?_
    rcases hmiss with hA | hT
    · rw [hA]; rfl
    · rw [hT, Bool.and_false]
  · intro r md hr hok hj hA hT
    subst hr
    exact discover_success origin r md hok hj hA hT

/-- Witness for C7 at a concrete rejected fetch: the discovery error wraps
the network cause and names the attempted well-known URL. -/
theorem discoverOAuthEndpoints_spec_witness :
    discoverOAuthEndpoints "https://mcp.example.com" (.error "connection refused") =
      .error (discoverWrap "https://mcp.example.com" "connection refused") :=
  (discoverOAuthEndpoints_spec "https://mcp.example.com"
    (.error "connection refused")).2.2.1 "connection refused" rfl

/-! ## Token-exchange theorems -/

/-- A token response whose token_type field is present but the empty string. -/
def tokenNetEmptyTokenType : Except String (FetchResult TokenResponseJson) :=
  .ok { ok := true, status := 200, statusText := "OK", bodyText := ""
        json := .ok { access_token := some "tok1", refresh_token := none
                      expires_in := none, scope := none, token_type := some "" } }

/-- Counterexample to C8 as stated: the server sends token_type present but
empty (not omitted), yet exchangeCodeForTokens substitutes "Bearer" — the
`(result.token_type as string) || "Bearer"` of line 174 replaces every falsy
token_type, not only an omitted field, so the present value "" is not passed
through unchanged. -/
theorem exchangeCodeForTokens_token_type_counterexample :
    tokenNetEmptyTokenType =
      .ok { ok := true, status := 200, statusText := "OK", bodyText := ""
            json := .ok { access_token := some "tok1", refresh_token := none
                          expires_in := none, scope := none, token_type := some "" } } ∧
    exchangeCodeForTokens "https://ex.com/token" "c1" "v1" "cid1" "u1"
        tokenNetEmptyTokenType =
      .ok { access_token := "tok1", refresh_token := none, expires_in := none
            scope := none, token_type := "Bearer" } ∧
    (("Bearer" : String) == "") = false :=
  ⟨rfl, rfl, by decide⟩

/-- C8 (amended): on a successful exchange, refresh_token, expires_in and
scope of the server response pass through unchanged and access_token is the
server's value; token_type passes through unchanged when it is present and
non-empty, and is substituted by the default "Bearer" exactly when the
server omits it or sends it as the empty string — the sole default
substitution in the result. -/
theorem exchangeCodeForTokens_passthrough (ep c v ci ru : String)
    (r : FetchResult TokenResponseJson) (j : TokenResponseJson)
    (hok : r.ok = true) (hj : r.json = .ok j) (ha : truthy j.access_token = true) :
    exchangeCodeForTokens ep c v ci ru (.ok r) =
      .ok { access_token := j.access_token.getD ""
            refresh_token := j.refresh_token
            expires_in := j.expires_in
            scope := j.scope
            token_type := if truthy j.token_type then j.token_type.getD "" else "Bearer" } := by
  simp only [exchangeCodeForTokens, fetchJSON, hok, if_true, hj, ha]
  cases htt : j.token_type with
  | none => simp [truthy, htt]
  | some t =>
      by_cases he : t = ""
      · simp [truthy, htt, he]
      · simp [truthy, htt, he]

def tokenJsonFull : TokenResponseJson :=
  { access_token := some "tok1", refresh_token := some "rt1", expires_in := some 3600
    scope := some "files:read", token_type := some "bearer" }

def tokenFetchFull : FetchResult TokenResponseJson :=
  { ok := true, status := 200, statusText := "OK", bodyText := "", json := .ok tokenJsonFull }

/-- Witness for the amended C8 at a concrete full token response: every
optional field passes through and the present non-empty token_type is kept. -/
theorem exchangeCodeForTokens_passthrough_witness :
    tokenFetchFull.ok = true ∧ tokenFetchFull.json = .ok tokenJsonFull ∧
    truthy tokenJsonFull.access_token = true ∧
    exchangeCodeForTokens "https://ex.com/token" "c1" "v1" "cid1" "u1" (.ok tokenFetchFull) =
      .ok { access_token := tokenJsonFull.access_token.getD ""
            refresh_token := tokenJsonFull.refresh_token
            expires_in := tokenJsonFull.expires_in
            scope := tokenJsonFull.scope
            token_type := if truthy tokenJsonFull.token_type then
              tokenJsonFull.token_type.getD "" else "Bearer" } :=
  ⟨rfl, rfl, by decide,
    exchangeCodeForTokens_passthrough "https://ex.com/token" "c1" "v1" "cid1" "u1"
      tokenFetchFull tokenJsonFull rfl rfl (by decide)⟩

/-! ## Storage theorems -/

/-- C10: readAuthFile is total — its return type carries no failure — and
any failed read (missing or unreadable file) and any unparseable content
both yield the empty mapping, silently discarding whatever the file held;
only a successful read that parses returns its mapping. -/
theorem readAuthFile_total_fallback (parseJson : String → Option AuthFile) :
    readAuthFile none parseJson = [] ∧
    (∀ content, parseJson content = none → readAuthFile (some content) parseJson = []) ∧
    (∀ content data, parseJson content = some data →
      readAuthFile (some content) parseJson = data) := by
  refine ⟨rfl, ?_, ?_⟩
  · intro c hc
    simp [readAuthFile, hc]
  · intro c d hd
    simp [readAuthFile, hd]

/-- Witness for C10: concrete malformed content with a parser that rejects it
yields the empty mapping. -/
theorem readAuthFile_total_fallback_witness :
    (fun _ : String => (none : Option AuthFile)) "this is not json" = none ∧
    readAuthFile (some "this is not json") (fun _ => none) = [] :=
  ⟨rfl, (readAuthFile_total_fallback (fun _ => none)).2.1 "this is not json" rfl⟩

end MCPAuth
